import Mathlib

/-!
Shallow embedding of the korangar GPU rendering core (graphics/mod.rs,
graphics/passes/forward/model.rs, graphics/passes/point_shadow/mod.rs)
and proofs about it.  Scalars that are `f32` in the source are modelled
as `Rat`; `u32`/`usize` values are modelled as `Nat` with explicit
truncation where the source casts.
-/

namespace Korangar

/-- Truncating cast to 32 bits, the meaning of Rust's `as u32` on an
unsigned value. -/
def u32cast (n : Nat) : Nat := n % 2 ^ 32

/-- A 4-component vector of `f32` (cgmath `Vector4<f32>`), modelled over `Rat`. -/
structure Vec4 where
  x : Rat
  y : Rat
  z : Rat
  w : Rat
deriving DecidableEq, Repr

/-- A 3-component vector of `f32` (cgmath `Vector3<f32>` / `Point3<f32>`). -/
structure Vec3 where
  x : Rat
  y : Rat
  z : Rat
deriving DecidableEq, Repr

/-- cgmath `Point3::to_homogeneous`: extend a point with `w = 1`. -/
def Vec3.toHomogeneous (v : Vec3) : Vec4 := ⟨v.x, v.y, v.z, 1⟩

/-- cgmath `Vector3::extend`: extend a vector with a given last component. -/
def Vec3.extend (v : Vec3) (c : Rat) : Vec4 := ⟨v.x, v.y, v.z, c⟩

/-- A 4x4 matrix of `f32` (cgmath `Matrix4<f32>`); field `mIJ` is the entry
in row `I`, column `J`. -/
structure Mat4 where
  m00 : Rat
  m01 : Rat
  m02 : Rat
  m03 : Rat
  m10 : Rat
  m11 : Rat
  m12 : Rat
  m13 : Rat
  m20 : Rat
  m21 : Rat
  m22 : Rat
  m23 : Rat
  m30 : Rat
  m31 : Rat
  m32 : Rat
  m33 : Rat
deriving DecidableEq, Repr

namespace Mat4

/-- cgmath `Matrix4::identity`. -/
def identity : Mat4 :=
  ⟨1, 0, 0, 0, 0, 1, 0, 0, 0, 0, 1, 0, 0, 0, 0, 1⟩

/-- The all-zero matrix (used as `Matrix4::zero` and as a singular input). -/
def zero : Mat4 :=
  ⟨0, 0, 0, 0, 0, 0, 0, 0, 0, 0, 0, 0, 0, 0, 0, 0⟩

/-- cgmath `Matrix4::transpose`. -/
def transpose (m : Mat4) : Mat4 :=
  ⟨m.m00, m.m10, m.m20, m.m30,
   m.m01, m.m11, m.m21, m.m31,
   m.m02, m.m12, m.m22, m.m32,
   m.m03, m.m13, m.m23, m.m33⟩

/-- cgmath `Matrix4::from_cols c0 c1 c2 c3`: build a matrix from its columns. -/
def fromCols (c0 c1 c2 c3 : Vec4) : Mat4 :=
  ⟨c0.x, c1.x, c2.x, c3.x,
   c0.y, c1.y, c2.y, c3.y,
   c0.z, c1.z, c2.z, c3.z,
   c0.w, c1.w, c2.w, c3.w⟩

/-- Matrix product (cgmath `Mul for Matrix4`). -/
def mul (a b : Mat4) : Mat4 :=
  ⟨a.m00 * b.m00 + a.m01 * b.m10 + a.m02 * b.m20 + a.m03 * b.m30,
   a.m00 * b.m01 + a.m01 * b.m11 + a.m02 * b.m21 + a.m03 * b.m31,
   a.m00 * b.m02 + a.m01 * b.m12 + a.m02 * b.m22 + a.m03 * b.m32,
   a.m00 * b.m03 + a.m01 * b.m13 + a.m02 * b.m23 + a.m03 * b.m33,
   a.m10 * b.m00 + a.m11 * b.m10 + a.m12 * b.m20 + a.m13 * b.m30,
   a.m10 * b.m01 + a.m11 * b.m11 + a.m12 * b.m21 + a.m13 * b.m31,
   a.m10 * b.m02 + a.m11 * b.m12 + a.m12 * b.m22 + a.m13 * b.m32,
   a.m10 * b.m03 + a.m11 * b.m13 + a.m12 * b.m23 + a.m13 * b.m33,
   a.m20 * b.m00 + a.m21 * b.m10 + a.m22 * b.m20 + a.m23 * b.m30,
   a.m20 * b.m01 + a.m21 * b.m11 + a.m22 * b.m21 + a.m23 * b.m31,
   a.m20 * b.m02 + a.m21 * b.m12 + a.m22 * b.m22 + a.m23 * b.m32,
   a.m20 * b.m03 + a.m21 * b.m13 + a.m22 * b.m23 + a.m23 * b.m33,
   a.m30 * b.m00 + a.m31 * b.m10 + a.m32 * b.m20 + a.m33 * b.m30,
   a.m30 * b.m01 + a.m31 * b.m11 + a.m32 * b.m21 + a.m33 * b.m31,
   a.m30 * b.m02 + a.m31 * b.m12 + a.m32 * b.m22 + a.m33 * b.m32,
   a.m30 * b.m03 + a.m31 * b.m13 + a.m32 * b.m23 + a.m33 * b.m33⟩

/-- Determinant of a 3x3 matrix given by rows, used for the 4x4 cofactors. -/
def det3 (a b c d e f g h i : Rat) : Rat :=
  a * (e * i - f * h) - b * (d * i - f * g) + c * (d * h - e * g)

/-- cgmath `Matrix4::determinant` (cofactor expansion along the first row). -/
def det (m : Mat4) : Rat :=
  m.m00 * det3 m.m11 m.m12 m.m13 m.m21 m.m22 m.m23 m.m31 m.m32 m.m33
  - m.m01 * det3 m.m10 m.m12 m.m13 m.m20 m.m22 m.m23 m.m30 m.m32 m.m33
  + m.m02 * det3 m.m10 m.m11 m.m13 m.m20 m.m21 m.m23 m.m30 m.m31 m.m33
  - m.m03 * det3 m.m10 m.m11 m.m12 m.m20 m.m21 m.m22 m.m30 m.m31 m.m32

/-- Scale every entry (used to divide the adjugate by the determinant). -/
def smul (c : Rat) (m : Mat4) : Mat4 :=
  ⟨c * m.m00, c * m.m01, c * m.m02, c * m.m03,
   c * m.m10, c * m.m11, c * m.m12, c * m.m13,
   c * m.m20, c * m.m21, c * m.m22, c * m.m23,
   c * m.m30, c * m.m31, c * m.m32, c * m.m33⟩

/-- Adjugate (transposed cofactor matrix): entry `(i, j)` is the cofactor
`(-1)^(i+j)` times the 3x3 minor obtained by deleting row `j`, column `i`. -/
def adjugate (m : Mat4) : Mat4 :=
  ⟨det3 m.m11 m.m12 m.m13 m.m21 m.m22 m.m23 m.m31 m.m32 m.m33,
   -det3 m.m01 m.m02 m.m03 m.m21 m.m22 m.m23 m.m31 m.m32 m.m33,
   det3 m.m01 m.m02 m.m03 m.m11 m.m12 m.m13 m.m31 m.m32 m.m33,
   -det3 m.m01 m.m02 m.m03 m.m11 m.m12 m.m13 m.m21 m.m22 m.m23,
   -det3 m.m10 m.m12 m.m13 m.m20 m.m22 m.m23 m.m30 m.m32 m.m33,
   det3 m.m00 m.m02 m.m03 m.m20 m.m22 m.m23 m.m30 m.m32 m.m33,
   -det3 m.m00 m.m02 m.m03 m.m10 m.m12 m.m13 m.m30 m.m32 m.m33,
   det3 m.m00 m.m02 m.m03 m.m10 m.m12 m.m13 m.m20 m.m22 m.m23,
   det3 m.m10 m.m11 m.m13 m.m20 m.m21 m.m23 m.m30 m.m31 m.m33,
   -det3 m.m00 m.m01 m.m03 m.m20 m.m21 m.m23 m.m30 m.m31 m.m33,
   det3 m.m00 m.m01 m.m03 m.m10 m.m11 m.m13 m.m30 m.m31 m.m33,
   -det3 m.m00 m.m01 m.m03 m.m10 m.m11 m.m13 m.m20 m.m21 m.m23,
   -det3 m.m10 m.m11 m.m12 m.m20 m.m21 m.m22 m.m30 m.m31 m.m32,
   det3 m.m00 m.m01 m.m02 m.m20 m.m21 m.m22 m.m30 m.m31 m.m32,
   -det3 m.m00 m.m01 m.m02 m.m10 m.m11 m.m12 m.m30 m.m31 m.m32,
   det3 m.m00 m.m01 m.m02 m.m10 m.m11 m.m12 m.m20 m.m21 m.m22⟩

/-- cgmath `SquareMatrix::invert`: `None` when the determinant vanishes,
otherwise the adjugate divided by the determinant.  cgmath's
`Transform::inverse_transform` for `Matrix4` is the same operation. -/
def invert (m : Mat4) : Option Mat4 :=
  if m.det = 0 then none else some (smul (1 / m.det) m.adjugate)

end Mat4

/-- Rust `!x` on a 64-bit `usize`: bitwise complement within 64 bits. -/
def usizeNot (x : Nat) : Nat := 2 ^ 64 - 1 - x

/-- The alignment computation in `PointShadowRenderPassContext::new` and in
`GlobalContext::create_screen_size_textures`:
`(size + alignment - 1) & !(alignment - 1)` on `usize`. -/
def rustAlignUp (size alignment : Nat) : Nat :=
  (size + alignment - 1) &&& usizeNot (alignment - 1)

/-- Rounding up to a multiple, the specification's reading of the alignment
computation: `alignment * ceil(size / alignment)`. -/
def roundUpTo (size alignment : Nat) : Nat :=
  alignment * ((size + alignment - 1) / alignment)

/-! ## Byte sizes of the `repr(C)` GPU structs

All fields are 4-byte scalars or arrays thereof, so the `repr(C)` layouts
have no interior padding and the sizes are the plain field sums. -/

/-- `size_of::<GlobalUniforms>()`: five `[[f32; 4]; 4]`, two `[f32; 4]`,
two `[u32; 2]`, three `f32`, one `u32`. -/
def sizeOfGlobalUniforms : Nat := 5 * 64 + 2 * 16 + 2 * 8 + 3 * 4 + 4

/-- `size_of::<DirectionalLightUniforms>()`: one matrix and two `[f32; 4]`. -/
def sizeOfDirectionalLightUniforms : Nat := 64 + 16 + 16

/-- `size_of::<PointLightData>()`: two `[f32; 4]`, `f32`, `i32`, `[u32; 2]`. -/
def sizeOfPointLightData : Nat := 16 + 16 + 4 + 4 + 8

/-- `size_of::<DebugUniforms>()`: five `u32` flags. -/
def sizeOfDebugUniforms : Nat := 5 * 4

/-- `size_of::<InstanceData>()` (forward model drawer): two matrices. -/
def sizeOfInstanceData : Nat := 64 + 64

/-- `size_of::<DrawIndirectArgs>()`: four `u32`. -/
def sizeOfDrawIndirectArgs : Nat := 4 * 4

/-- `size_of::<PassUniforms>()` (point shadow pass): one matrix, one
`[f32; 4]`, one `f32` and `[u32; 3]` padding. -/
def sizeOfPassUniforms : Nat := 64 + 16 + 4 + 12

/-- `size_of::<TileLightIndices>()`: `[u32; 256]`. -/
def sizeOfTileLightIndices : Nat := 256 * 4

/-! ## The growable typed GPU buffer -/

/-- Modelled from the spec: `Buffer<T>` (graphics/buffer.rs is not under
src/) — "a growable, strongly-typed GPU buffer: logical element count,
backing allocation capacity (rounded up on growth, never shrunk)".  Only
the capacity matters for the claims; it is tracked in bytes. -/
structure GBuffer where
  capacity : Nat
deriving DecidableEq, Repr

/-- Modelled from the spec: `Buffer::write` — "writing data larger than
current capacity triggers reallocation and signals recreated to callers
so dependent bind groups can be rebuilt; writing smaller data never
shrinks capacity".  The exact growth rounding is unspecified; the new
capacity is taken to be the requested size (any value at least the
requested size satisfies the spec and the claims do not depend on it).
Returns the buffer after the write and the reallocation flag. -/
def GBuffer.write (b : GBuffer) (bytes : Nat) : GBuffer × Bool :=
  if b.capacity < bytes then (⟨bytes⟩, true) else (b, false)

/-! ## Screen size and the light-tile grid -/

/-- `ScreenSize` after the `as u32` casts applied wherever the `f32`
fields are consumed by the code under consideration. -/
structure ScreenSize where
  width : Nat
  height : Nat
deriving DecidableEq, Repr

/-- `LIGHT_TILE_SIZE`: the pixel size of a light-culling tile. -/
def LIGHT_TILE_SIZE : Nat := 16

/-- `calculate_light_tile_count`: per-axis tile counts
`(width + 15) / 16` and `(height + 15) / 16`. -/
def calculate_light_tile_count (screen_size : ScreenSize) : Nat × Nat :=
  ((screen_size.width + LIGHT_TILE_SIZE - 1) / LIGHT_TILE_SIZE,
   (screen_size.height + LIGHT_TILE_SIZE - 1) / LIGHT_TILE_SIZE)

/-- `GlobalContext::create_tile_light_indices_buffer`: the number of
`TileLightIndices` records the buffer is created with,
`(tile_count_x * tile_count_y).max(1)`. -/
def tileLightIndicesRecordCount (screen_size : ScreenSize) : Nat :=
  let tiles := calculate_light_tile_count screen_size
  max (tiles.1 * tiles.2) 1

/-- The byte capacity passed to `Buffer::with_capacity` by
`create_tile_light_indices_buffer`. -/
def createTileLightIndicesBuffer (screen_size : ScreenSize) : GBuffer :=
  ⟨tileLightIndicesRecordCount screen_size * sizeOfTileLightIndices⟩

/-! ## Render instructions (produced by the scene layer each frame) -/

/-- Color as carried by the instructions.  The sRGB-to-linear conversion
`components_linear` lives in graphics/color.rs, which is not under src/;
it is modelled from the spec as carrying the four components through,
which is faithful for every claim (no claim inspects color values). -/
structure Color where
  red : Rat
  green : Rat
  blue : Rat
  alpha : Rat
deriving DecidableEq, Repr

/-- Modelled from the spec: `Color::components_linear` returns the four
components as a `[f32; 4]`; the numeric transfer curve is irrelevant to
every claim and is modelled as the identity on components. -/
def Color.componentsLinear (c : Color) : Vec4 := ⟨c.red, c.green, c.blue, c.alpha⟩

/-- A model draw instruction; the fields read by `ForwardModelDrawer`
(`model_matrix`, `vertex_offset`, `vertex_count`). -/
structure ModelInstruction where
  model_matrix : Mat4
  vertex_offset : Nat
  vertex_count : Nat
deriving DecidableEq, Repr

/-- A point light instruction (no shadow): position, color, range. -/
structure PointLightInstruction where
  position : Vec3
  color : Color
  range : Rat
deriving DecidableEq, Repr

/-- A shadow-casting point light instruction: additionally carries one
view-projection matrix per cube face. -/
structure PointShadowCasterInstruction where
  position : Vec3
  color : Color
  range : Rat
  view_projection_matrices : List Mat4
deriving DecidableEq, Repr

/-- The indicator instruction (four corner points and a color). -/
structure IndicatorInstruction where
  upper_left : Vec3
  upper_right : Vec3
  lower_left : Vec3
  lower_right : Vec3
  color : Color
deriving DecidableEq, Repr

/-- The per-frame `Uniforms` part of the render instruction set. -/
structure UniformsInstruction where
  view_matrix : Mat4
  projection_matrix : Mat4
  animation_timer : Rat
  day_timer : Rat
  water_level : Rat
  ambient_light_color : Color
deriving DecidableEq, Repr

/-- The directional light descriptor. -/
structure DirectionalLightInstruction where
  view_projection_matrix : Mat4
  color : Color
  direction : Vec3
deriving DecidableEq, Repr

/-- The render instruction set, restricted to the fields the embedded
operations read.  The debug-only `render_settings` overrides are feature
gated out of release builds and are not modelled (the embedding is the
non-debug build). -/
structure RenderInstruction where
  uniforms : UniformsInstruction
  indicator : Option IndicatorInstruction
  picker_position_left : Nat
  picker_position_top : Nat
  directional_light_with_shadow : DirectionalLightInstruction
  point_light_shadow_caster : List PointShadowCasterInstruction
  point_light : List PointLightInstruction
  models : List ModelInstruction
deriving DecidableEq, Repr

/-! ## GlobalContext: per-frame prepare (data level) -/

/-- The CPU-side `GlobalUniforms` value computed by
`GlobalContext::prepare`. -/
structure GlobalUniformsData where
  view_projection : Mat4
  view : Mat4
  inverse_view : Mat4
  inverse_projection : Mat4
  indicator_positions : Mat4
  indicator_color : Vec4
  ambient_color : Vec4
  screen_size : Nat × Nat
  pointer_position : Nat × Nat
  animation_timer : Rat
  day_timer : Rat
  water_level : Rat
  point_light_count : Nat
deriving DecidableEq, Repr

/-- The CPU-side `DirectionalLightUniforms` value computed by
`GlobalContext::prepare`. -/
structure DirectionalLightUniformsData where
  view_projection : Mat4
  color : Vec4
  direction : Vec4
deriving DecidableEq, Repr

/-- One `PointLightData` record staged by `GlobalContext::prepare`. -/
structure PointLightDataRec where
  position : Vec4
  color : Vec4
  range : Rat
  texture_index : Int
deriving DecidableEq, Repr

/-- `Color::WHITE` (the default indicator color when no indicator
instruction is present). -/
def colorWhite : Color := ⟨1, 1, 1, 1⟩

/-- The `GlobalUniforms` struct computed by `GlobalContext::prepare`
(non-debug build: no render-settings overrides). -/
def globalPrepareUniforms (screen_size : ScreenSize) (ins : RenderInstruction) :
    GlobalUniformsData :=
  let indicator :=
    match ins.indicator with
    | none => (Mat4.zero, colorWhite)
    | some ind =>
      (Mat4.fromCols ind.upper_left.toHomogeneous ind.upper_right.toHomogeneous
        ind.lower_left.toHomogeneous ind.lower_right.toHomogeneous, ind.color)
  { view_projection := Mat4.mul ins.uniforms.projection_matrix ins.uniforms.view_matrix
    view := ins.uniforms.view_matrix
    inverse_view := (ins.uniforms.view_matrix.invert).getD Mat4.identity
    inverse_projection := (ins.uniforms.projection_matrix.invert).getD Mat4.identity
    indicator_positions := indicator.1
    indicator_color := indicator.2.componentsLinear
    ambient_color := ins.uniforms.ambient_light_color.componentsLinear
    screen_size := (screen_size.width, screen_size.height)
    pointer_position := (ins.picker_position_left, ins.picker_position_top)
    animation_timer := ins.uniforms.animation_timer
    day_timer := ins.uniforms.day_timer
    water_level := ins.uniforms.water_level
    point_light_count :=
      u32cast (ins.point_light_shadow_caster.length + ins.point_light.length) }

/-- The `DirectionalLightUniforms` struct computed by
`GlobalContext::prepare`. -/
def globalPrepareDirectionalLight (ins : RenderInstruction) :
    DirectionalLightUniformsData :=
  { view_projection := ins.directional_light_with_shadow.view_projection_matrix
    color := ins.directional_light_with_shadow.color.componentsLinear
    direction := ins.directional_light_with_shadow.direction.extend 0 }

/-- The `point_light_data` list built by `GlobalContext::prepare`: first
every shadow caster (texture index `instance_index + 1`), then every
plain point light (texture index `0`), each in instruction order. -/
def globalPreparePointLightData (ins : RenderInstruction) : List PointLightDataRec :=
  ins.point_light_shadow_caster.enum.map
    (fun p =>
      { position := p.2.position.toHomogeneous
        color := p.2.color.componentsLinear
        range := p.2.range
        texture_index := (p.1 : Int) + 1 })
  ++ ins.point_light.map
    (fun l =>
      { position := l.position.toHomogeneous
        color := l.color.componentsLinear
        range := l.range
        texture_index := 0 })

/-- The cube-array slot whose face view `create_pass` renders into for a
given `shadow_caster_index`: the pass indexes
`point_shadow_map_textures[shadow_caster_index]` directly. -/
def pointShadowTargetSlot (shadow_caster_index : Nat) : Nat := shadow_caster_index

/-! ## GlobalContext: upload and the conditional bind-group rebuild -/

/-- The buffers `GlobalContext::upload` writes to.  The debug uniforms
buffer exists only when the `debug` feature is compiled in, hence the
`Option`. -/
structure GlobalCtxBuffers where
  global_uniforms_buffer : GBuffer
  directional_light_uniforms_buffer : GBuffer
  point_light_data_buffer : GBuffer
  debug_uniforms_buffer : Option GBuffer
deriving DecidableEq, Repr

/-- What one call of `GlobalContext::upload` did: the buffers after the
writes, each write's reallocation flag in call order, and how many times
each bind group was created during the call. -/
structure GlobalUploadResult where
  buffers : GlobalCtxBuffers
  reallocFlags : List Bool
  globalRebuilds : Nat
  lightCullingRebuilds : Nat
  forwardRebuilds : Nat
  debugRebuilds : Nat
deriving DecidableEq, Repr

/-- `GlobalContext::upload`: writes the global uniforms, the directional
light uniforms, the point light data (skipped when the staged list is
empty) and, when present, the debug uniforms; then, exactly when some
write reallocated, creates the global, light-culling, forward and (when
present) debug bind groups once each.  `pointLightCount` is the length
of the staged `point_light_data` list. -/
def GlobalContext.upload (bufs : GlobalCtxBuffers) (pointLightCount : Nat) :
    GlobalUploadResult :=
  let w1 := bufs.global_uniforms_buffer.write sizeOfGlobalUniforms
  let w2 := bufs.directional_light_uniforms_buffer.write sizeOfDirectionalLightUniforms
  let w3 :=
    if pointLightCount ≠ 0 then
      let w := bufs.point_light_data_buffer.write (pointLightCount * sizeOfPointLightData)
      (w.1, [w.2])
    else (bufs.point_light_data_buffer, [])
  let w4 :=
    match bufs.debug_uniforms_buffer with
    | some b =>
      let w := b.write sizeOfDebugUniforms
      (some w.1, [w.2])
    | none => (none, [])
  let flags := [w1.2, w2.2] ++ w3.2 ++ w4.2
  let recreated := flags.any id
  { buffers :=
      { global_uniforms_buffer := w1.1
        directional_light_uniforms_buffer := w2.1
        point_light_data_buffer := w3.1
        debug_uniforms_buffer := w4.1 }
    reallocFlags := flags
    globalRebuilds := if recreated then 1 else 0
    lightCullingRebuilds := if recreated then 1 else 0
    forwardRebuilds := if recreated then 1 else 0
    debugRebuilds := if recreated && bufs.debug_uniforms_buffer.isSome then 1 else 0 }

/-- The buffer capacities `GlobalContext::new` allocates: global and
directional uniforms sized for one record, the point light buffer for
128 `PointLightData` records, the debug buffer (when the feature is
enabled) for one `DebugUniforms` record. -/
def GlobalContext.initBuffers (debugEnabled : Bool) : GlobalCtxBuffers :=
  { global_uniforms_buffer := ⟨sizeOfGlobalUniforms⟩
    directional_light_uniforms_buffer := ⟨sizeOfDirectionalLightUniforms⟩
    point_light_data_buffer := ⟨128 * sizeOfPointLightData⟩
    debug_uniforms_buffer := if debugEnabled then some ⟨sizeOfDebugUniforms⟩ else none }

/-! ## Forward model drawer -/

/-- One staged `InstanceData` record: world matrix and the transpose of
the inverse world matrix (identity when the model matrix has no
inverse). -/
structure InstanceData where
  world : Mat4
  inv_world : Mat4
deriving DecidableEq, Repr

/-- One `DrawIndirectArgs` record as staged by the drawer; all four
fields hold `u32` values. -/
structure DrawIndirectArgs where
  vertex_count : Nat
  instance_count : Nat
  first_vertex : Nat
  first_instance : Nat
deriving DecidableEq, Repr

/-- The instance record built for one model instruction in
`ForwardModelDrawer::prepare`. -/
def instanceDataOf (ins : ModelInstruction) : InstanceData :=
  { world := ins.model_matrix
    inv_world := ((ins.model_matrix.invert).getD Mat4.identity).transpose }

/-- The indirect draw command built for the instruction at position
`instance_index` in `ForwardModelDrawer::prepare`. -/
def drawCommandOf (instance_index : Nat) (ins : ModelInstruction) : DrawIndirectArgs :=
  { vertex_count := u32cast ins.vertex_count
    instance_count := 1
    first_vertex := u32cast ins.vertex_offset
    first_instance := u32cast instance_index }

/-- The full state of `ForwardModelDrawer` that `prepare`/`upload`
touch: the three CPU staging vectors and the three GPU buffers. -/
structure ForwardModelDrawerState where
  instance_data : List InstanceData
  instance_indices : List Nat
  draw_commands : List DrawIndirectArgs
  instance_data_buffer : GBuffer
  instance_index_vertex_buffer : GBuffer
  command_buffer : GBuffer
deriving DecidableEq, Repr

/-- `INITIAL_INSTRUCTION_SIZE`: initial element capacity of the drawer's
three buffers. -/
def INITIAL_INSTRUCTION_SIZE : Nat := 256

/-- The drawer state after `ForwardModelDrawer::new`: empty staging
vectors, buffers sized for `INITIAL_INSTRUCTION_SIZE` elements. -/
def ForwardModelDrawerState.new : ForwardModelDrawerState :=
  { instance_data := []
    instance_indices := []
    draw_commands := []
    instance_data_buffer := ⟨sizeOfInstanceData * INITIAL_INSTRUCTION_SIZE⟩
    instance_index_vertex_buffer := ⟨4 * INITIAL_INSTRUCTION_SIZE⟩
    command_buffer := ⟨sizeOfDrawIndirectArgs * INITIAL_INSTRUCTION_SIZE⟩ }

/-- `ForwardModelDrawer::prepare`: returns immediately when the model
list is empty (the staging vectors keep their previous contents),
otherwise clears the staging vectors and stages one instance record, one
instance index and one indirect command per instruction. -/
def ForwardModelDrawerState.prepare (st : ForwardModelDrawerState)
    (models : List ModelInstruction) : ForwardModelDrawerState :=
  if models.length = 0 then st
  else
    { st with
      instance_data := models.map instanceDataOf
      instance_indices := (List.range models.length).map u32cast
      draw_commands := models.enum.map (fun p => drawCommandOf p.1 p.2) }

/-- `ForwardModelDrawer::upload`: unconditionally writes the instance
data, the instance index vertex stream and the indirect commands; the
bind group is recreated exactly when the instance data buffer
reallocated.  Returns the state after the writes, the byte size of each
of the three writes in call order, and the bind-group-recreated flag. -/
def ForwardModelDrawerState.upload (st : ForwardModelDrawerState) :
    ForwardModelDrawerState × List Nat × Bool :=
  let w1 := st.instance_data_buffer.write (st.instance_data.length * sizeOfInstanceData)
  let w2 := st.instance_index_vertex_buffer.write (st.instance_indices.length * 4)
  let w3 := st.command_buffer.write (st.draw_commands.length * sizeOfDrawIndirectArgs)
  ({ st with
      instance_data_buffer := w1.1
      instance_index_vertex_buffer := w2.1
      command_buffer := w3.1 },
   [st.instance_data.length * sizeOfInstanceData,
    st.instance_indices.length * 4,
    st.draw_commands.length * sizeOfDrawIndirectArgs],
   w1.2)

/-- A per-texture batch as consumed by `ForwardModelDrawer::draw`:
`offset` and `count` index a contiguous run of the instruction list. -/
structure ModelBatch where
  offset : Nat
  count : Nat
deriving DecidableEq, Repr

/-- A submitted draw: the vertex range `[vertexStart, vertexEnd)` and the
single instance index, all `u32` values.  `vertexEnd` wraps modulo 2^32
exactly as the `u32` addition in the fallback path does. -/
structure SubmittedDraw where
  vertexStart : Nat
  vertexEnd : Nat
  instanceIndex : Nat
deriving DecidableEq, Repr

/-- The draws issued for one batch on the multi-draw-indirect path:
`batch.count` commands are read from the indirect buffer starting at
`batch.offset`; each command draws vertices
`[first_vertex, first_vertex + vertex_count)` for its single instance
`first_instance`. -/
def indirectBatchDraws (commands : List DrawIndirectArgs) (batch : ModelBatch) :
    List SubmittedDraw :=
  ((commands.drop batch.offset).take batch.count).map
    (fun c =>
      { vertexStart := c.first_vertex
        vertexEnd := (c.first_vertex + c.vertex_count) % 2 ^ 32
        instanceIndex := c.first_instance })

/-- The draws issued for one batch on the per-instruction fallback path:
for each instruction of the batch slice, `draw(vertex_start..vertex_end,
index..index + 1)` with `index = batch.offset + position`. -/
def fallbackBatchDraws (instructions : List ModelInstruction) (batch : ModelBatch) :
    List SubmittedDraw :=
  (((instructions.drop batch.offset).take batch.count).enum).map
    (fun p =>
      { vertexStart := u32cast p.2.vertex_offset
        vertexEnd := (u32cast p.2.vertex_offset + u32cast p.2.vertex_count) % 2 ^ 32
        instanceIndex := u32cast (batch.offset + p.1) })

/-! ## Point shadow render pass context -/

/-- `NUMBER_FACES`: the six faces of a shadow cube map. -/
def NUMBER_FACES : Nat := 6

/-- The point shadow pass context state relevant to offsets and the
staging byte buffer: the aligned per-record size and the byte length of
the staging buffer (`buffer_data`), fixed at creation. -/
structure PointShadowCtx where
  aligned_size : Nat
  buffer_data_len : Nat
deriving DecidableEq, Repr

/-- `PointShadowRenderPassContext::new`: the record size is
`size_of::<PassUniforms>()` aligned up to the device's minimum uniform
buffer offset alignment with the `& !(align - 1)` bit trick, and the
staging buffer holds `aligned_size * maxLights * 6` bytes, where
`maxLights` is `NUMBER_OF_POINT_LIGHTS_WITH_SHADOWS` (a compile-time
constant defined outside the sampled sources, kept as a parameter). -/
def PointShadowCtx.new (maxLights uniformAlignment : Nat) : PointShadowCtx :=
  let aligned := rustAlignUp sizeOfPassUniforms uniformAlignment
  { aligned_size := aligned
    buffer_data_len := aligned * maxLights * NUMBER_FACES }

/-- The dynamic offset computed by
`PointShadowRenderPassContext::create_pass`:
`((shadow_caster_index * 6 + face_index) * aligned_size) as u32`. -/
def PointShadowCtx.dynamicOffset (ctx : PointShadowCtx)
    (shadow_caster_index face_index : Nat) : Nat :=
  u32cast ((shadow_caster_index * NUMBER_FACES + face_index) * ctx.aligned_size)

/-- `PointShadowRenderPassContext::prepare` serializes
`6 * casterCount` records; record `i` is copied into
`buffer_data[i * aligned_size .. i * aligned_size + size_of::<PassUniforms>()]`,
which panics (slice indexing out of bounds) unless the end stays within
the buffer.  `true` exactly when every copy is in bounds. -/
def PointShadowCtx.prepareOk (ctx : PointShadowCtx) (casterCount : Nat) : Bool :=
  (List.range (casterCount * NUMBER_FACES)).all
    (fun i => i * ctx.aligned_size + sizeOfPassUniforms ≤ ctx.buffer_data_len)

/-! ## Screen-size dependent resources and anti-aliasing resources -/

/-- Reported pixel dimensions of a texture. -/
structure TexDims where
  width : Nat
  height : Nat
deriving DecidableEq, Repr

/-- Rust `!x` on `u32`: bitwise complement within 32 bits. -/
def u32Not (x : Nat) : Nat := 2 ^ 32 - 1 - x

/-- `COPY_BYTES_PER_ROW_ALIGNMENT` (wgpu). -/
def COPY_BYTES_PER_ROW_ALIGNMENT : Nat := 256

/-- The padded picker width computed in
`GlobalContext::create_screen_size_textures`: the row byte length
(`width * 8` for `Rg32Uint`) aligned up to
`COPY_BYTES_PER_ROW_ALIGNMENT`, divided back by the block size. -/
def pickerPaddedWidth (width : Nat) : Nat :=
  ((width * 8 + (COPY_BYTES_PER_ROW_ALIGNMENT - 1)) &&&
    u32Not (COPY_BYTES_PER_ROW_ALIGNMENT - 1)) / 8

/-- The screen-size textures created by
`GlobalContext::create_screen_size_textures`.  Modelled from the spec
for the texture wrappers (graphics/texture.rs is not under src/): an
attachment texture created by `AttachmentTextureFactory` reports the
factory's screen size, except that a supplied padded width replaces the
width; the tile-light-count storage texture is created directly at the
tile grid dimensions.  MSAA and the AA mode affect sample counts and
usage flags only, never the reported pixel dimensions. -/
structure ScreenSizeTexturesRes where
  forward_color_texture : TexDims
  forward_depth_texture : TexDims
  picker_buffer_texture : TexDims
  picker_depth_texture : TexDims
  interface_buffer_texture : TexDims
  tile_light_count_texture : TexDims
deriving DecidableEq, Repr

/-- `GlobalContext::create_screen_size_textures`, at the level of
reported dimensions. -/
def create_screen_size_textures (screen_size : ScreenSize) : ScreenSizeTexturesRes :=
  let padded := pickerPaddedWidth screen_size.width
  let tiles := calculate_light_tile_count screen_size
  { forward_color_texture := ⟨screen_size.width, screen_size.height⟩
    forward_depth_texture := ⟨screen_size.width, screen_size.height⟩
    picker_buffer_texture := ⟨padded, screen_size.height⟩
    picker_depth_texture := ⟨padded, screen_size.height⟩
    interface_buffer_texture := ⟨screen_size.width, screen_size.height⟩
    tile_light_count_texture := ⟨tiles.1, tiles.2⟩ }

/-- `GlobalContext::create_resolved_color_texture`: present exactly when
multisampling is active, at screen size. -/
def create_resolved_color_texture (screen_size : ScreenSize) (msaaOn : Bool) :
    Option TexDims :=
  if msaaOn then some ⟨screen_size.width, screen_size.height⟩ else none

/-- The screen-space anti-aliasing mode. -/
inductive ScreenSpaceAA where
  | off
  | fxaa
  | cmaa2
deriving DecidableEq, Repr

/-- `MAX_BUFFER_SIZE`: the 128 MiB cap on a single buffer allocation. -/
def MAX_BUFFER_SIZE : Nat := 128 * 1024 * 1024

/-- `size_of::<DispatchIndirectArgs>()`: three `u32`. -/
def sizeOfDispatchIndirectArgs : Nat := 3 * 4

/-- The byte capacities of the CMAA2 buffers created by
`GlobalContext::create_anti_aliasing_resources` for a given screen
size. -/
structure Cmaa2BufferCaps where
  edges_texture : TexDims
  control_buffer : Nat
  indirect_buffer : Nat
  shape_candidates_buffer : Nat
  deferred_blend_item_list_heads_buffer : Nat
  deferred_blend_item_list_buffer : Nat
  deferred_blend_location_list_buffer : Nat
deriving DecidableEq, Repr

/-- The CMAA2 resource sizes computed by
`GlobalContext::create_anti_aliasing_resources` in the `Cmaa2` arm. -/
def cmaa2ResourceCaps (width height : Nat) : Cmaa2BufferCaps :=
  let max_shape_candidates := width * height / 4
  let max_deferred_blend_items := width * height / 2
  let max_deferred_blend_locations := (width * height + 3) / 6
  { edges_texture := ⟨(width + 1) / 2, height⟩
    control_buffer := 4 * 4
    indirect_buffer := sizeOfDispatchIndirectArgs
    shape_candidates_buffer := min (max max_shape_candidates 1 * 4) MAX_BUFFER_SIZE
    deferred_blend_item_list_heads_buffer :=
      min (max ((width + 1) / 2 * ((height + 1) / 2)) 1 * 4) MAX_BUFFER_SIZE
    deferred_blend_item_list_buffer :=
      min (max max_deferred_blend_items 1 * 8) MAX_BUFFER_SIZE
    deferred_blend_location_list_buffer :=
      min (max max_deferred_blend_locations 1 * 4) MAX_BUFFER_SIZE }

/-- The anti-aliasing resource variant owned by `GlobalContext`. -/
inductive AntiAliasingResource where
  | offRes
  | fxaaRes (color_with_luma_texture : TexDims)
  | cmaa2Res (caps : Cmaa2BufferCaps)
deriving DecidableEq, Repr

/-- `GlobalContext::create_anti_aliasing_resources`. -/
def create_anti_aliasing_resources (mode : ScreenSpaceAA) (screen_size : ScreenSize) :
    AntiAliasingResource :=
  match mode with
  | .off => .offRes
  | .fxaa => .fxaaRes ⟨screen_size.width, screen_size.height⟩
  | .cmaa2 => .cmaa2Res (cmaa2ResourceCaps screen_size.width screen_size.height)

/-- The slice of `GlobalContext` state touched by
`update_screen_size_resources` and `update_shadow_size_textures`:
screen-size textures and buffers, shadow textures, and the settings they
depend on. -/
structure GlobalContextRes where
  screen_size : ScreenSize
  msaaOn : Bool
  screen_space_anti_aliasing : ScreenSpaceAA
  forward_color_texture : TexDims
  forward_depth_texture : TexDims
  picker_buffer_texture : TexDims
  picker_depth_texture : TexDims
  resolved_color_texture : Option TexDims
  interface_buffer_texture : TexDims
  tile_light_count_texture : TexDims
  tile_light_indices_buffer : GBuffer
  anti_aliasing_resources : AntiAliasingResource
  directional_shadow_size : ScreenSize
  point_shadow_size : ScreenSize
  directional_shadow_map_texture : TexDims
  point_shadow_map_texture : TexDims
deriving DecidableEq, Repr

/-- The resource dimensions established by `GlobalContext::new` for the
given screen size, MSAA state, AA mode and shadow resolutions
(`shadow_detail.directional_shadow_resolution()` and
`point_shadow_resolution()` supplied as plain numbers). -/
def GlobalContextRes.new (screen_size : ScreenSize) (msaaOn : Bool)
    (mode : ScreenSpaceAA) (directionalShadowRes pointShadowRes : Nat) :
    GlobalContextRes :=
  let t := create_screen_size_textures screen_size
  { screen_size := screen_size
    msaaOn := msaaOn
    screen_space_anti_aliasing := mode
    forward_color_texture := t.forward_color_texture
    forward_depth_texture := t.forward_depth_texture
    picker_buffer_texture := t.picker_buffer_texture
    picker_depth_texture := t.picker_depth_texture
    resolved_color_texture := create_resolved_color_texture screen_size msaaOn
    interface_buffer_texture := t.interface_buffer_texture
    tile_light_count_texture := t.tile_light_count_texture
    tile_light_indices_buffer := createTileLightIndicesBuffer screen_size
    anti_aliasing_resources := create_anti_aliasing_resources mode screen_size
    directional_shadow_size := ⟨directionalShadowRes, directionalShadowRes⟩
    point_shadow_size := ⟨pointShadowRes, pointShadowRes⟩
    directional_shadow_map_texture := ⟨directionalShadowRes, directionalShadowRes⟩
    point_shadow_map_texture := ⟨pointShadowRes, pointShadowRes⟩ }

/-- `GlobalContext::update_screen_size_resources`: recreates every
screen-size texture, the resolved color texture, the tile-light-indices
buffer and the anti-aliasing resources from the new screen size; the
shadow sizes and shadow textures are not touched. -/
def GlobalContextRes.update_screen_size_resources (ctx : GlobalContextRes)
    (screen_size : ScreenSize) : GlobalContextRes :=
  let t := create_screen_size_textures screen_size
  { ctx with
    screen_size := screen_size
    forward_color_texture := t.forward_color_texture
    forward_depth_texture := t.forward_depth_texture
    picker_buffer_texture := t.picker_buffer_texture
    picker_depth_texture := t.picker_depth_texture
    resolved_color_texture := create_resolved_color_texture screen_size ctx.msaaOn
    interface_buffer_texture := t.interface_buffer_texture
    tile_light_count_texture := t.tile_light_count_texture
    tile_light_indices_buffer := createTileLightIndicesBuffer screen_size
    anti_aliasing_resources :=
      create_anti_aliasing_resources ctx.screen_space_anti_aliasing screen_size }

/-- A concrete instruction set with one shadow-casting point light and
no plain point lights, used to examine the texture-index tagging. -/
def c6Instruction : RenderInstruction :=
  { uniforms :=
      { view_matrix := Mat4.identity
        projection_matrix := Mat4.identity
        animation_timer := 0
        day_timer := 0
        water_level := 0
        ambient_light_color := ⟨1, 1, 1, 1⟩ }
    indicator := none
    picker_position_left := 0
    picker_position_top := 0
    directional_light_with_shadow :=
      { view_projection_matrix := Mat4.identity
        color := ⟨1, 1, 1, 1⟩
        direction := ⟨0, -1, 0⟩ }
    point_light_shadow_caster := [⟨⟨0, 0, 0⟩, ⟨1, 1, 1, 1⟩, 5, []⟩]
    point_light := []
    models := [] }

/-- A concrete instruction set whose view and projection matrices are
the (singular) zero matrix. -/
def c10Instruction : RenderInstruction :=
  { uniforms :=
      { view_matrix := Mat4.zero
        projection_matrix := Mat4.zero
        animation_timer := 0
        day_timer := 0
        water_level := 0
        ambient_light_color := ⟨1, 1, 1, 1⟩ }
    indicator := none
    picker_position_left := 0
    picker_position_top := 0
    directional_light_with_shadow :=
      { view_projection_matrix := Mat4.identity
        color := ⟨1, 1, 1, 1⟩
        direction := ⟨0, -1, 0⟩ }
    point_light_shadow_caster := []
    point_light := []
    models := [] }

/-! ## Helper lemmas -/

/-- Masking with `2^n - 2^k` keeps exactly the bits from position `k`
upward: for `x < 2^n` it equals `2^k * (x / 2^k)`. -/
theorem land_high_mask (k x : Nat) (hk : k ≤ 64) (hx : x < 2 ^ 64) :
    x &&& (2 ^ 64 - 2 ^ k) = 2 ^ k * (x / 2 ^ k) := by
  have hmask : 2 ^ 64 - 2 ^ k = (2 ^ (64 - k) - 1) <<< k := by
    rw [Nat.shiftLeft_eq, Nat.sub_mul, one_mul, ← Nat.pow_add]
    have h : 64 - k + k = 64 := by omega
    rw [h]
  have hrhs : 2 ^ k * (x / 2 ^ k) = (x >>> k) <<< k := by
    rw [Nat.shiftRight_eq_div_pow, Nat.shiftLeft_eq, Nat.mul_comm]
  rw [hmask, hrhs]
  apply Nat.eq_of_testBit_eq
  intro i
  rcases Nat.lt_or_ge i k with hik | hik
  · have h1 : ¬ k ≤ i := by omega
    simp [Nat.testBit_and, Nat.testBit_shiftLeft, h1]
  · rcases Nat.lt_or_ge i 64 with hi64 | hi64
    · have h1 : k + (i - k) = i := by omega
      have h2 : i - k < 64 - k := by omega
      simp [Nat.testBit_and, Nat.testBit_shiftLeft, Nat.testBit_shiftRight,
        Nat.testBit_two_pow_sub_one, hik, h1, h2]
    · have hxi : x.testBit i = false :=
        Nat.testBit_lt_two_pow
          (lt_of_lt_of_le hx (Nat.pow_le_pow_right (by norm_num) hi64))
      have h1 : k + (i - k) = i := by omega
      have h2 : ¬ (i - k < 64 - k) := by omega
      simp [Nat.testBit_and, Nat.testBit_shiftLeft, Nat.testBit_shiftRight,
        Nat.testBit_two_pow_sub_one, hik, h1, h2, hxi]

/-- The `& !(align - 1)` bit trick in the source equals arithmetic
rounding up to a multiple of the (power-of-two) alignment. -/
theorem rustAlignUp_pow2 (s k : Nat) (hk : k ≤ 64) (hs : s + 2 ^ k - 1 < 2 ^ 64) :
    rustAlignUp s (2 ^ k) = roundUpTo s (2 ^ k) := by
  unfold rustAlignUp roundUpTo usizeNot
  have hone : (1 : Nat) ≤ 2 ^ k := Nat.one_le_two_pow
  have hle : (2 : Nat) ^ k ≤ 2 ^ 64 := Nat.pow_le_pow_right (by norm_num) hk
  have h1 : 2 ^ 64 - 1 - (2 ^ k - 1) = 2 ^ 64 - 2 ^ k := by omega
  rw [h1]
  exact land_high_mask k _ hk hs

/-- Rounding up never rounds below the size. -/
theorem le_roundUpTo (s a : Nat) (ha : 0 < a) : s ≤ roundUpTo s a := by
  unfold roundUpTo
  have h1 := Nat.div_add_mod (s + a - 1) a
  have h2 : (s + a - 1) % a < a := Nat.mod_lt _ ha
  have h3 : a * ((s + a - 1) / a) = (s + a - 1) - (s + a - 1) % a :=
    Nat.eq_sub_of_add_eq h1
  rw [h3]
  generalize hm : (s + a - 1) % a = m at h2 ⊢
  omega

/-- `get?` through `drop`. -/
theorem get?_drop_eq {α : Type} (l : List α) (n i : Nat) :
    (l.drop n).get? i = l.get? (n + i) := by
  induction l generalizing n with
  | nil => simp
  | cons a t ih =>
    cases n with
    | zero => simp
    | succ m =>
      have h : Nat.succ m + i = Nat.succ (m + i) := by omega
      simp [h]

/-- The aligned record size of the point shadow pass equals the
arithmetic round-up of `size_of::<PassUniforms>()`. -/
theorem pointShadowAligned_eq (k : Nat) (hk : k ≤ 63) :
    rustAlignUp sizeOfPassUniforms (2 ^ k) = roundUpTo sizeOfPassUniforms (2 ^ k) := by
  apply rustAlignUp_pow2 _ _ (by omega)
  have hle : (2 : Nat) ^ k ≤ 2 ^ 63 := Nat.pow_le_pow_right (by norm_num) hk
  have h63 : (2 : Nat) ^ 63 < 2 ^ 64 := by norm_num
  have hone : (1 : Nat) ≤ 2 ^ k := Nat.one_le_two_pow
  simp only [sizeOfPassUniforms]
  omega

/-- The aligned record size is at least `size_of::<PassUniforms>()`. -/
theorem pointShadowAligned_ge (k : Nat) (hk : k ≤ 63) :
    sizeOfPassUniforms ≤ rustAlignUp sizeOfPassUniforms (2 ^ k) := by
  rw [pointShadowAligned_eq k hk]
  exact le_roundUpTo _ _ (Nat.two_pow_pos k)

/-! ## Claims -/

/-- C3: for every shadow-caster index `l < maxLights` and face
`f < 6`, the dynamic offset computed by `create_pass` equals
`(l * 6 + f) * aligned_record_size` where the aligned record size is
`size_of::<PassUniforms>()` rounded up to the device's minimum uniform
buffer offset alignment (a power of two `2^k`), and the one-record
offset ranges of two distinct `(l, f)` pairs never overlap.  The bound
`hfit` states that the whole uniform buffer is addressable with `u32`
offsets, which the `as u32` cast in the source presumes. -/
theorem c3_point_shadow_offset (k maxLights l f l' f' : Nat) (hk : k ≤ 63)
    (hl : l < maxLights) (hf : f < 6) (hl' : l' < maxLights) (hf' : f' < 6)
    (hfit : maxLights * 6 * (PointShadowCtx.new maxLights (2 ^ k)).aligned_size ≤ 2 ^ 32) :
    (PointShadowCtx.new maxLights (2 ^ k)).dynamicOffset l f
      = (l * 6 + f) * roundUpTo sizeOfPassUniforms (2 ^ k)
    ∧ ((l, f) ≠ (l', f') →
      (PointShadowCtx.new maxLights (2 ^ k)).dynamicOffset l f
          + (PointShadowCtx.new maxLights (2 ^ k)).aligned_size
          ≤ (PointShadowCtx.new maxLights (2 ^ k)).dynamicOffset l' f'
        ∨ (PointShadowCtx.new maxLights (2 ^ k)).dynamicOffset l' f'
          + (PointShadowCtx.new maxLights (2 ^ k)).aligned_size
          ≤ (PointShadowCtx.new maxLights (2 ^ k)).dynamicOffset l f) := by
  have hctx : (PointShadowCtx.new maxLights (2 ^ k)).aligned_size
      = rustAlignUp sizeOfPassUniforms (2 ^ k) := rfl
  set al := rustAlignUp sizeOfPassUniforms (2 ^ k) with hal_def
  have h96 : sizeOfPassUniforms ≤ al := pointShadowAligned_ge k hk
  have hpos : 0 < al := lt_of_lt_of_le (by norm_num [sizeOfPassUniforms]) h96
  rw [hctx] at hfit
  have key : ∀ a b : Nat, a < maxLights → b < 6 → (a * 6 + b) * al + al ≤ 2 ^ 32 := by
    intro a b ha hb
    have h1 : a * 6 + b + 1 ≤ maxLights * 6 := by omega
    have h2 : (a * 6 + b + 1) * al ≤ maxLights * 6 * al := Nat.mul_le_mul_right al h1
    have h3 : (a * 6 + b + 1) * al = (a * 6 + b) * al + al := by ring
    rw [h3] at h2
    exact le_trans h2 hfit
  have hlt : ∀ a b : Nat, a < maxLights → b < 6 → (a * 6 + b) * al < 2 ^ 32 := by
    intro a b ha hb
    exact lt_of_lt_of_le (Nat.lt_add_of_pos_right hpos) (key a b ha hb)
  have hoff : ∀ a b : Nat, a < maxLights → b < 6 →
      (PointShadowCtx.new maxLights (2 ^ k)).dynamicOffset a b = (a * 6 + b) * al := by
    intro a b ha hb
    show u32cast ((a * NUMBER_FACES + b) * al) = (a * 6 + b) * al
    simp only [NUMBER_FACES, u32cast]
    exact Nat.mod_eq_of_lt (hlt a b ha hb)
  constructor
  · rw [hoff l f hl hf, ← pointShadowAligned_eq k hk]
  · intro hne
    have hij : l * 6 + f ≠ l' * 6 + f' := by
      intro h
      apply hne
      have hll : l = l' ∧ f = f' := by omega
      rw [hll.1, hll.2]
    rw [hoff l f hl hf, hoff l' f' hl' hf', hctx]
    rcases Nat.lt_or_ge (l * 6 + f) (l' * 6 + f') with hcase | hcase
    · left
      have h1 : (l * 6 + f + 1) * al ≤ (l' * 6 + f') * al :=
        Nat.mul_le_mul_right al (by omega)
      have h2 : (l * 6 + f + 1) * al = (l * 6 + f) * al + al := by ring
      rw [h2] at h1
      exact h1
    · right
      have hgt : l' * 6 + f' < l * 6 + f := lt_of_le_of_ne hcase (Ne.symm hij)
      have h1 : (l' * 6 + f' + 1) * al ≤ (l * 6 + f) * al :=
        Nat.mul_le_mul_right al (by omega)
      have h2 : (l' * 6 + f' + 1) * al = (l' * 6 + f') * al + al := by ring
      rw [h2] at h1
      exact h1

/-- Witness for C3 at alignment 256, eight light slots, `(l, f) = (1, 2)`. -/
theorem c3_point_shadow_offset_witness :
    ((8 : Nat) ≤ 63 ∧ (1 : Nat) < 8 ∧ (2 : Nat) < 6
      ∧ 8 * 6 * (PointShadowCtx.new 8 (2 ^ 8)).aligned_size ≤ 2 ^ 32)
    ∧ (PointShadowCtx.new 8 (2 ^ 8)).dynamicOffset 1 2
        = (1 * 6 + 2) * roundUpTo sizeOfPassUniforms (2 ^ 8) :=
  ⟨by decide,
   (c3_point_shadow_offset 8 8 1 2 0 0 (by decide) (by decide) (by decide)
     (by decide) (by decide) (by decide)).1⟩

/-- C9: the staging byte buffer of the point shadow pass is created with
exactly `aligned_size * maxLights * 6` bytes, and `prepare` serializes
all records in bounds (no panic) exactly when the instruction set holds
at most `maxLights` shadow casters. -/
theorem c9_point_shadow_prepare_capacity (k maxLights c : Nat) (hk : k ≤ 63) :
    (PointShadowCtx.new maxLights (2 ^ k)).buffer_data_len
      = (PointShadowCtx.new maxLights (2 ^ k)).aligned_size * maxLights * NUMBER_FACES
    ∧ ((PointShadowCtx.new maxLights (2 ^ k)).prepareOk c = true ↔ c ≤ maxLights) := by
  have hctx : (PointShadowCtx.new maxLights (2 ^ k)).aligned_size
      = rustAlignUp sizeOfPassUniforms (2 ^ k) := rfl
  set al := rustAlignUp sizeOfPassUniforms (2 ^ k) with hal_def
  have h96 : sizeOfPassUniforms ≤ al := pointShadowAligned_ge k hk
  have h96v : (96 : Nat) ≤ al := by simpa [sizeOfPassUniforms] using h96
  refine ⟨rfl, ?_⟩
  show ((List.range (c * NUMBER_FACES)).all
      (fun i => i * al + sizeOfPassUniforms ≤ al * maxLights * NUMBER_FACES)) = true
    ↔ c ≤ maxLights
  rw [List.all_eq_true]
  simp only [List.mem_range, decide_eq_true_eq, NUMBER_FACES, sizeOfPassUniforms]
  constructor
  · intro h
    by_contra hc
    push_neg at hc
    have hmem : maxLights * 6 < c * 6 := by omega
    have hbad := h (maxLights * 6) hmem
    have hcomm : al * maxLights * 6 = maxLights * 6 * al := by ring
    rw [hcomm] at hbad
    omega
  · intro hc i hi
    have hi6 : i + 1 ≤ maxLights * 6 := by omega
    have h1 : (i + 1) * al ≤ maxLights * 6 * al := Nat.mul_le_mul_right al hi6
    have h2 : (i + 1) * al = i * al + al := by ring
    have hcomm : al * maxLights * 6 = maxLights * 6 * al := by ring
    rw [hcomm]
    omega

/-- Witness for C9 at alignment 256 and four light slots; four casters
serialize in bounds. -/
theorem c9_point_shadow_prepare_capacity_witness :
    ((8 : Nat) ≤ 63)
    ∧ ((PointShadowCtx.new 4 (2 ^ 8)).prepareOk 4 = true ↔ (4 : Nat) ≤ 4) :=
  ⟨by decide, (c9_point_shadow_prepare_capacity 8 4 4 (by decide)).2⟩

/-- C4 counterexample: at the zero screen size the computed tile counts
are `(0, 0)`, not at least one per axis as the claim states (only the
buffer record count is clamped to one). -/
theorem c4_tile_count_counterexample :
    calculate_light_tile_count ⟨0, 0⟩ = (0, 0)
    ∧ ¬ (1 ≤ (calculate_light_tile_count ⟨0, 0⟩).1)
    ∧ ¬ (1 ≤ (calculate_light_tile_count ⟨0, 0⟩).2)
    ∧ tileLightIndicesRecordCount ⟨0, 0⟩ = 1 := by
  decide

/-- C4 as amended: the tile counts are exactly the ceiling divisions of
the screen dimensions by 16 with no per-axis clamp (so they are at least
one only when the dimension is at least one), while the
tile-light-indices buffer record count is the product clamped to a
minimum of one. -/
theorem c4_tile_count (S : ScreenSize) :
    (calculate_light_tile_count S).1 = S.width ⌈/⌉ 16
    ∧ (calculate_light_tile_count S).2 = S.height ⌈/⌉ 16
    ∧ tileLightIndicesRecordCount S
        = max ((S.width ⌈/⌉ 16) * (S.height ⌈/⌉ 16)) 1
    ∧ 1 ≤ tileLightIndicesRecordCount S
    ∧ (1 ≤ S.width → 1 ≤ (calculate_light_tile_count S).1)
    ∧ (1 ≤ S.height → 1 ≤ (calculate_light_tile_count S).2) := by
  have hx : (calculate_light_tile_count S).1 = S.width ⌈/⌉ 16 := by
    rw [Nat.ceilDiv_eq_add_pred_div]
    rfl
  have hy : (calculate_light_tile_count S).2 = S.height ⌈/⌉ 16 := by
    rw [Nat.ceilDiv_eq_add_pred_div]
    rfl
  refine ⟨hx, hy, ?_, ?_, ?_, ?_⟩
  · rw [tileLightIndicesRecordCount, ← hx, ← hy]
  · exact le_max_right _ 1
  · intro hw
    rw [hx, Nat.ceilDiv_eq_add_pred_div]
    have : 16 ≤ S.width + 16 - 1 := by omega
    omega
  · intro hh
    rw [hy, Nat.ceilDiv_eq_add_pred_div]
    have : 16 ≤ S.height + 16 - 1 := by omega
    omega

/-- Witness for C4 (amended) at 800x600: both implications fire and the
record count is 1900. -/
theorem c4_tile_count_witness :
    ((1 : Nat) ≤ 800 ∧ 1 ≤ (calculate_light_tile_count ⟨800, 600⟩).1)
    ∧ tileLightIndicesRecordCount ⟨800, 600⟩
        = max (((800 : Nat) ⌈/⌉ 16) * ((600 : Nat) ⌈/⌉ 16)) 1 :=
  ⟨⟨by decide, (c4_tile_count ⟨800, 600⟩).2.2.2.2.1 (by decide)⟩,
   (c4_tile_count ⟨800, 600⟩).2.2.1⟩

/-- C8: every CMAA2 shape-candidate and deferred-blend buffer is
allocated with the minimum of its worst-case estimate and
`MAX_BUFFER_SIZE` (128 MiB); an estimate over the cap yields the cap
(clamped, not rejected) and an estimate within the cap is allocated in
full, so no such allocation ever exceeds 128 MiB. -/
theorem c8_cmaa2_buffer_clamp (w h : Nat) :
    ((cmaa2ResourceCaps w h).shape_candidates_buffer
        = min (max (w * h / 4) 1 * 4) MAX_BUFFER_SIZE
      ∧ (cmaa2ResourceCaps w h).shape_candidates_buffer ≤ MAX_BUFFER_SIZE
      ∧ (MAX_BUFFER_SIZE < max (w * h / 4) 1 * 4 →
          (cmaa2ResourceCaps w h).shape_candidates_buffer = MAX_BUFFER_SIZE)
      ∧ (max (w * h / 4) 1 * 4 ≤ MAX_BUFFER_SIZE →
          (cmaa2ResourceCaps w h).shape_candidates_buffer = max (w * h / 4) 1 * 4))
    ∧ ((cmaa2ResourceCaps w h).deferred_blend_item_list_heads_buffer
        = min (max ((w + 1) / 2 * ((h + 1) / 2)) 1 * 4) MAX_BUFFER_SIZE
      ∧ (cmaa2ResourceCaps w h).deferred_blend_item_list_heads_buffer ≤ MAX_BUFFER_SIZE
      ∧ (MAX_BUFFER_SIZE < max ((w + 1) / 2 * ((h + 1) / 2)) 1 * 4 →
          (cmaa2ResourceCaps w h).deferred_blend_item_list_heads_buffer = MAX_BUFFER_SIZE)
      ∧ (max ((w + 1) / 2 * ((h + 1) / 2)) 1 * 4 ≤ MAX_BUFFER_SIZE →
          (cmaa2ResourceCaps w h).deferred_blend_item_list_heads_buffer
            = max ((w + 1) / 2 * ((h + 1) / 2)) 1 * 4))
    ∧ ((cmaa2ResourceCaps w h).deferred_blend_item_list_buffer
        = min (max (w * h / 2) 1 * 8) MAX_BUFFER_SIZE
      ∧ (cmaa2ResourceCaps w h).deferred_blend_item_list_buffer ≤ MAX_BUFFER_SIZE
      ∧ (MAX_BUFFER_SIZE < max (w * h / 2) 1 * 8 →
          (cmaa2ResourceCaps w h).deferred_blend_item_list_buffer = MAX_BUFFER_SIZE)
      ∧ (max (w * h / 2) 1 * 8 ≤ MAX_BUFFER_SIZE →
          (cmaa2ResourceCaps w h).deferred_blend_item_list_buffer
            = max (w * h / 2) 1 * 8))
    ∧ ((cmaa2ResourceCaps w h).deferred_blend_location_list_buffer
        = min (max ((w * h + 3) / 6) 1 * 4) MAX_BUFFER_SIZE
      ∧ (cmaa2ResourceCaps w h).deferred_blend_location_list_buffer ≤ MAX_BUFFER_SIZE
      ∧ (MAX_BUFFER_SIZE < max ((w * h + 3) / 6) 1 * 4 →
          (cmaa2ResourceCaps w h).deferred_blend_location_list_buffer = MAX_BUFFER_SIZE)
      ∧ (max ((w * h + 3) / 6) 1 * 4 ≤ MAX_BUFFER_SIZE →
          (cmaa2ResourceCaps w h).deferred_blend_location_list_buffer
            = max ((w * h + 3) / 6) 1 * 4)) := by
  refine ⟨⟨rfl, Nat.min_le_right _ _, ?_, ?_⟩, ⟨rfl, Nat.min_le_right _ _, ?_, ?_⟩,
    ⟨rfl, Nat.min_le_right _ _, ?_, ?_⟩, ⟨rfl, Nat.min_le_right _ _, ?_, ?_⟩⟩
  all_goals intro hcmp
  · exact Nat.min_eq_right (Nat.le_of_lt hcmp)
  · exact Nat.min_eq_left hcmp
  · exact Nat.min_eq_right (Nat.le_of_lt hcmp)
  · exact Nat.min_eq_left hcmp
  · exact Nat.min_eq_right (Nat.le_of_lt hcmp)
  · exact Nat.min_eq_left hcmp
  · exact Nat.min_eq_right (Nat.le_of_lt hcmp)
  · exact Nat.min_eq_left hcmp

/-- Witness for C8 at a 16384x16384 screen, where the deferred blend
item estimate exceeds 128 MiB and is clamped to it. -/
theorem c8_cmaa2_buffer_clamp_witness :
    MAX_BUFFER_SIZE < max (16384 * 16384 / 2) 1 * 8
    ∧ (cmaa2ResourceCaps 16384 16384).deferred_blend_item_list_buffer = MAX_BUFFER_SIZE :=
  ⟨by decide, (c8_cmaa2_buffer_clamp 16384 16384).2.2.1.2.2.1 (by decide)⟩

/-- C7: `update_screen_size_resources` recreates every screen-size
texture at the dimensions derived from the new screen size and
recomputes the tile-light-indices buffer, while the shadow sizes and
shadow textures are untouched; concretely, resizing a context created at
1920x1080 down to 800x600 makes every screen-size texture report
800x600, the tile grid 50x38 with 1900 buffer records, and leaves the
shadow textures exactly as they were. -/
theorem c7_screen_resize :
    (∀ (ctx : GlobalContextRes) (S : ScreenSize),
      (ctx.update_screen_size_resources S).directional_shadow_size = ctx.directional_shadow_size
      ∧ (ctx.update_screen_size_resources S).point_shadow_size = ctx.point_shadow_size
      ∧ (ctx.update_screen_size_resources S).directional_shadow_map_texture
          = ctx.directional_shadow_map_texture
      ∧ (ctx.update_screen_size_resources S).point_shadow_map_texture
          = ctx.point_shadow_map_texture
      ∧ (ctx.update_screen_size_resources S).screen_size = S
      ∧ (ctx.update_screen_size_resources S).forward_color_texture = ⟨S.width, S.height⟩
      ∧ (ctx.update_screen_size_resources S).forward_depth_texture = ⟨S.width, S.height⟩
      ∧ (ctx.update_screen_size_resources S).interface_buffer_texture = ⟨S.width, S.height⟩
      ∧ (ctx.update_screen_size_resources S).picker_buffer_texture
          = ⟨pickerPaddedWidth S.width, S.height⟩
      ∧ (ctx.update_screen_size_resources S).picker_depth_texture
          = ⟨pickerPaddedWidth S.width, S.height⟩
      ∧ (ctx.update_screen_size_resources S).tile_light_count_texture
          = ⟨(calculate_light_tile_count S).1, (calculate_light_tile_count S).2⟩
      ∧ (ctx.update_screen_size_resources S).tile_light_indices_buffer
          = ⟨tileLightIndicesRecordCount S * sizeOfTileLightIndices⟩)
    ∧ ((GlobalContextRes.new ⟨1920, 1080⟩ false .off 2048 512).update_screen_size_resources
          ⟨800, 600⟩
        = { screen_size := ⟨800, 600⟩
            msaaOn := false
            screen_space_anti_aliasing := .off
            forward_color_texture := ⟨800, 600⟩
            forward_depth_texture := ⟨800, 600⟩
            picker_buffer_texture := ⟨800, 600⟩
            picker_depth_texture := ⟨800, 600⟩
            resolved_color_texture := none
            interface_buffer_texture := ⟨800, 600⟩
            tile_light_count_texture := ⟨50, 38⟩
            tile_light_indices_buffer := ⟨1900 * sizeOfTileLightIndices⟩
            anti_aliasing_resources := .offRes
            directional_shadow_size := ⟨2048, 2048⟩
            point_shadow_size := ⟨512, 512⟩
            directional_shadow_map_texture := ⟨2048, 2048⟩
            point_shadow_map_texture := ⟨512, 512⟩ }
      ∧ (GlobalContextRes.new ⟨1920, 1080⟩ false .off 2048 512).directional_shadow_map_texture
          = ⟨2048, 2048⟩
      ∧ (GlobalContextRes.new ⟨1920, 1080⟩ false .off 2048 512).point_shadow_map_texture
          = ⟨512, 512⟩
      ∧ tileLightIndicesRecordCount ⟨800, 600⟩ = 1900) := by
  constructor
  · intro ctx S
    exact ⟨rfl, rfl, rfl, rfl, rfl, rfl, rfl, rfl, rfl, rfl, rfl, rfl⟩
  · decide

/-- C2: in `GlobalContext::upload` each of the global, light-culling,
forward and (when the debug buffer exists) debug bind groups is rebuilt
at most once per call, and is rebuilt exactly when at least one buffer
write of the call reported reallocation; writes that fit within the
current capacities report no reallocation, so a frame without capacity
growth rebuilds nothing; and uploading 130 point lights to the buffers
`GlobalContext::new` creates (point light capacity 128 records) makes
exactly the point light write reallocate and every bind group rebuild
exactly once. -/
theorem c2_upload_bind_group_rebuild :
    (∀ (bufs : GlobalCtxBuffers) (n : Nat),
      (GlobalContext.upload bufs n).globalRebuilds ≤ 1
      ∧ (GlobalContext.upload bufs n).lightCullingRebuilds ≤ 1
      ∧ (GlobalContext.upload bufs n).forwardRebuilds ≤ 1
      ∧ (GlobalContext.upload bufs n).debugRebuilds ≤ 1
      ∧ ((GlobalContext.upload bufs n).globalRebuilds = 1
          ↔ (GlobalContext.upload bufs n).reallocFlags.any id = true)
      ∧ ((GlobalContext.upload bufs n).lightCullingRebuilds = 1
          ↔ (GlobalContext.upload bufs n).reallocFlags.any id = true)
      ∧ ((GlobalContext.upload bufs n).forwardRebuilds = 1
          ↔ (GlobalContext.upload bufs n).reallocFlags.any id = true)
      ∧ (bufs.debug_uniforms_buffer.isSome = true →
          ((GlobalContext.upload bufs n).debugRebuilds = 1
            ↔ (GlobalContext.upload bufs n).reallocFlags.any id = true))
      ∧ ((GlobalContext.upload bufs n).reallocFlags.any id = false →
          (GlobalContext.upload bufs n).globalRebuilds = 0
          ∧ (GlobalContext.upload bufs n).lightCullingRebuilds = 0
          ∧ (GlobalContext.upload bufs n).forwardRebuilds = 0
          ∧ (GlobalContext.upload bufs n).debugRebuilds = 0))
    ∧ (∀ (bufs : GlobalCtxBuffers) (n : Nat),
        sizeOfGlobalUniforms ≤ bufs.global_uniforms_buffer.capacity →
        sizeOfDirectionalLightUniforms ≤ bufs.directional_light_uniforms_buffer.capacity →
        n * sizeOfPointLightData ≤ bufs.point_light_data_buffer.capacity →
        (∀ b, bufs.debug_uniforms_buffer = some b → sizeOfDebugUniforms ≤ b.capacity) →
        (GlobalContext.upload bufs n).reallocFlags.any id = false)
    ∧ ((GlobalContext.upload (GlobalContext.initBuffers true) 130).reallocFlags
        = [false, false, true, false]
      ∧ (GlobalContext.upload (GlobalContext.initBuffers true) 130).globalRebuilds = 1
      ∧ (GlobalContext.upload (GlobalContext.initBuffers true) 130).lightCullingRebuilds = 1
      ∧ (GlobalContext.upload (GlobalContext.initBuffers true) 130).forwardRebuilds = 1
      ∧ (GlobalContext.upload (GlobalContext.initBuffers true) 130).debugRebuilds = 1
      ∧ (GlobalContext.initBuffers true).point_light_data_buffer.capacity
          = 128 * sizeOfPointLightData
      ∧ (GlobalContext.initBuffers true).point_light_data_buffer.capacity
          < 130 * sizeOfPointLightData) := by
  refine ⟨?_, ?_, by decide⟩
  · intro bufs n
    have hg : (GlobalContext.upload bufs n).globalRebuilds
        = if (GlobalContext.upload bufs n).reallocFlags.any id = true then 1 else 0 := rfl
    have hl : (GlobalContext.upload bufs n).lightCullingRebuilds
        = if (GlobalContext.upload bufs n).reallocFlags.any id = true then 1 else 0 := rfl
    have hf : (GlobalContext.upload bufs n).forwardRebuilds
        = if (GlobalContext.upload bufs n).reallocFlags.any id = true then 1 else 0 := rfl
    have hd : (GlobalContext.upload bufs n).debugRebuilds
        = if ((GlobalContext.upload bufs n).reallocFlags.any id
              && bufs.debug_uniforms_buffer.isSome) = true then 1 else 0 := rfl
    rw [hg, hl, hf, hd]
    generalize (GlobalContext.upload bufs n).reallocFlags.any id = x
    cases x
    · simp
    · cases hs : bufs.debug_uniforms_buffer.isSome <;> simp [hs]
  · intro bufs n h1 h2 h3 h4
    obtain ⟨g, d, p, dbg⟩ := bufs
    show (GlobalContext.upload ⟨g, d, p, dbg⟩ n).reallocFlags.any id = false
    have hw1 : g.write sizeOfGlobalUniforms = (g, false) := by
      rw [GBuffer.write, if_neg (Nat.not_lt.mpr h1)]
    have hw2 : d.write sizeOfDirectionalLightUniforms = (d, false) := by
      rw [GBuffer.write, if_neg (Nat.not_lt.mpr h2)]
    have hw3 : p.write (n * sizeOfPointLightData) = (p, false) := by
      rw [GBuffer.write, if_neg (Nat.not_lt.mpr h3)]
    cases dbg with
    | none =>
      by_cases hn : n ≠ 0 <;>
        simp [GlobalContext.upload, hn, hw1, hw2, hw3]
    | some b =>
      have hw4 : b.write sizeOfDebugUniforms = (b, false) := by
        rw [GBuffer.write, if_neg (Nat.not_lt.mpr (h4 b rfl))]
      by_cases hn : n ≠ 0 <;>
        simp [GlobalContext.upload, hn, hw1, hw2, hw3, hw4]

/-- Witness for C2: with the freshly created buffers and an empty point
light list every write fits, so no write reallocates. -/
theorem c2_upload_bind_group_rebuild_witness :
    (sizeOfGlobalUniforms ≤ (GlobalContext.initBuffers false).global_uniforms_buffer.capacity
      ∧ (0 : Nat) * sizeOfPointLightData
          ≤ (GlobalContext.initBuffers false).point_light_data_buffer.capacity)
    ∧ (GlobalContext.upload (GlobalContext.initBuffers false) 0).reallocFlags.any id = false :=
  ⟨⟨by decide, by decide⟩,
   (c2_upload_bind_group_rebuild.2.1 (GlobalContext.initBuffers false) 0 (by decide)
     (by decide) (by decide) (by intro b hb; simp [GlobalContext.initBuffers] at hb))⟩

/-- C6 counterexample: with a single shadow-casting point light, the
caster occupies cube-array slot 0 (that is the slot `create_pass`
renders into for `shadow_caster_index = 0`) but its staged
`texture_index` is 1, not 0, so a shadow caster in slot N is tagged
N + 1, not N as the claim states. -/
theorem c6_texture_index_counterexample :
    (globalPreparePointLightData c6Instruction).map (fun d => d.texture_index) = [1]
    ∧ pointShadowTargetSlot 0 = 0
    ∧ (1 : Int) ≠ 0 := by
  decide

/-- C6 as amended: `GlobalContext::prepare` stages all shadow-casting
point lights first, in instruction order, then all plain point lights in
instruction order; a plain light is tagged with texture-array index 0,
and the shadow caster occupying cube-array slot N is tagged with
texture-array index N + 1. -/
theorem c6_point_light_data_order (ins : RenderInstruction) :
    (globalPreparePointLightData ins).length
      = ins.point_light_shadow_caster.length + ins.point_light.length
    ∧ (∀ (i : Nat) (c : PointShadowCasterInstruction),
        ins.point_light_shadow_caster.get? i = some c →
        (globalPreparePointLightData ins).get? i
          = some ⟨c.position.toHomogeneous, c.color.componentsLinear, c.range,
              (pointShadowTargetSlot i : Int) + 1⟩)
    ∧ (∀ (j : Nat) (l : PointLightInstruction),
        ins.point_light.get? j = some l →
        (globalPreparePointLightData ins).get?
            (ins.point_light_shadow_caster.length + j)
          = some ⟨l.position.toHomogeneous, l.color.componentsLinear, l.range, 0⟩) := by
  refine ⟨?_, ?_, ?_⟩
  · simp [globalPreparePointLightData]
  · intro i c hc
    obtain ⟨hi, _⟩ := List.get?_eq_some.mp hc
    rw [globalPreparePointLightData, List.get?_append
      (by simpa [List.enum_length] using hi)]
    rw [List.get?_map, List.get?_enum, hc]
    rfl
  · intro j l hl
    rw [globalPreparePointLightData, List.get?_append_right
      (by simp [List.enum_length])]
    simp only [List.length_map, List.enum_length, Nat.add_sub_cancel_left]
    rw [List.get?_map, hl]
    rfl

/-- Witness for C6 (amended): the single caster of the example
instruction set is staged at position 0 with texture index 1. -/
theorem c6_point_light_data_order_witness :
    (c6Instruction.point_light_shadow_caster.get? 0
        = some ⟨⟨0, 0, 0⟩, ⟨1, 1, 1, 1⟩, 5, []⟩)
    ∧ (globalPreparePointLightData c6Instruction).get? 0
        = some ⟨(Vec3.mk 0 0 0).toHomogeneous, (Color.mk 1 1 1 1).componentsLinear, 5,
            (pointShadowTargetSlot 0 : Int) + 1⟩ :=
  ⟨rfl, (c6_point_light_data_order c6Instruction).2.1 0 ⟨⟨0, 0, 0⟩, ⟨1, 1, 1, 1⟩, 5, []⟩ rfl⟩

/-- C10: per-frame preparation is total in the face of non-invertible
matrices.  When the view or projection matrix has no inverse,
`GlobalContext::prepare` stores the identity matrix as the corresponding
inverse uniform, and when a model matrix has no inverse transform,
`ForwardModelDrawer::prepare` stores the transpose of the identity
matrix as that instance's `inv_world`. -/
theorem c10_noninvertible_fallback :
    (∀ (S : ScreenSize) (ins : RenderInstruction),
      (ins.uniforms.view_matrix.invert = none →
        (globalPrepareUniforms S ins).inverse_view = Mat4.identity)
      ∧ (ins.uniforms.projection_matrix.invert = none →
        (globalPrepareUniforms S ins).inverse_projection = Mat4.identity))
    ∧ (∀ (st : ForwardModelDrawerState) (models : List ModelInstruction)
        (i : Nat) (m : ModelInstruction),
        models.get? i = some m →
        m.model_matrix.invert = none →
        ((st.prepare models).instance_data).get? i
          = some ⟨m.model_matrix, Mat4.identity.transpose⟩) := by
  constructor
  · intro S ins
    constructor
    · intro hnone
      show (ins.uniforms.view_matrix.invert).getD Mat4.identity = Mat4.identity
      rw [hnone]
      rfl
    · intro hnone
      show (ins.uniforms.projection_matrix.invert).getD Mat4.identity = Mat4.identity
      rw [hnone]
      rfl
  · intro st models i m hm hnone
    obtain ⟨hi, _⟩ := List.get?_eq_some.mp hm
    have hlen : ¬ models.length = 0 := by omega
    rw [ForwardModelDrawerState.prepare, if_neg hlen]
    show (models.map instanceDataOf).get? i = _
    rw [List.get?_map, hm]
    simp [instanceDataOf, hnone]

/-- Witness for C10: the zero matrix has no inverse; preparing with it
as the view matrix stores the identity, and the single model instance
with a zero model matrix gets the transposed identity. -/
theorem c10_noninvertible_fallback_witness :
    ((c10Instruction.uniforms.view_matrix.invert = none)
      ∧ (globalPrepareUniforms ⟨640, 480⟩ c10Instruction).inverse_view = Mat4.identity)
    ∧ (([⟨Mat4.zero, 3, 4⟩] : List ModelInstruction).get? 0 = some ⟨Mat4.zero, 3, 4⟩
      ∧ (ForwardModelDrawerState.new.prepare [⟨Mat4.zero, 3, 4⟩]).instance_data.get? 0
          = some ⟨Mat4.zero, Mat4.identity.transpose⟩) := by
  have hdet : Mat4.zero.det = 0 := by norm_num [Mat4.det, Mat4.det3, Mat4.zero]
  have hinv : Mat4.zero.invert = none := by rw [Mat4.invert, if_pos hdet]
  exact ⟨⟨hinv, (c10_noninvertible_fallback.1 ⟨640, 480⟩ c10Instruction).1 hinv⟩,
    ⟨rfl, c10_noninvertible_fallback.2 ForwardModelDrawerState.new [⟨Mat4.zero, 3, 4⟩] 0
      ⟨Mat4.zero, 3, 4⟩ rfl hinv⟩⟩

/-- C5 counterexample: after a frame with one model instruction, a frame
with an empty instruction list still performs the three buffer writes in
`ForwardModelDrawer::upload`, re-uploading the stale staging data
(128 bytes of instance data, 4 bytes of indices, 16 bytes of commands) —
the claim that no buffer write happens on an empty frame is false. -/
theorem c5_empty_frame_counterexample :
    ((((ForwardModelDrawerState.new.prepare
          [⟨Mat4.identity, 0, 6⟩]).upload.1).prepare []).upload.2.1
        = [sizeOfInstanceData, 4, sizeOfDrawIndirectArgs])
    ∧ sizeOfInstanceData ≠ 0 := by
  decide

/-- C5 as amended: when the model instruction list is empty, `prepare`
does no CPU-side staging work (the drawer state is returned unchanged),
but `upload` still performs its three buffer writes, writing the staging
vectors' current — possibly stale — contents. -/
theorem c5_empty_frame (st : ForwardModelDrawerState) (models : List ModelInstruction)
    (h : models ≠ []) :
    (st.prepare [] = st)
    ∧ ((st.prepare models).upload.1.prepare []).upload.2.1
        = [models.length * sizeOfInstanceData, models.length * 4,
           models.length * sizeOfDrawIndirectArgs] := by
  constructor
  · rfl
  · have hlen : ¬ models.length = 0 := by
      intro h0
      exact h (List.length_eq_zero.mp h0)
    simp [ForwardModelDrawerState.prepare, hlen, ForwardModelDrawerState.upload,
      List.enum_length]

/-- Witness for C5 (amended): one model in the first frame, an empty
second frame that still uploads the one stale record to each buffer. -/
theorem c5_empty_frame_witness :
    (([⟨Mat4.identity, 0, 6⟩] : List ModelInstruction) ≠ [])
    ∧ ((ForwardModelDrawerState.new.prepare
          [⟨Mat4.identity, 0, 6⟩]).upload.1.prepare []).upload.2.1
        = [1 * sizeOfInstanceData, 1 * 4, 1 * sizeOfDrawIndirectArgs] :=
  ⟨by decide,
   (c5_empty_frame ForwardModelDrawerState.new [⟨Mat4.identity, 0, 6⟩] (by decide)).2⟩

/-- For a batch within bounds, the draws decoded from the prepared
indirect commands equal the draws of the per-instruction fallback
loop. -/
theorem batch_draws_eq (models : List ModelInstruction) (b : ModelBatch)
    (h : b.offset + b.count ≤ models.length) :
    indirectBatchDraws (models.enum.map (fun p => drawCommandOf p.1 p.2)) b
      = fallbackBatchDraws models b := by
  apply List.ext_get?
  intro i
  rcases Nat.lt_or_ge i b.count with hic | hic
  · simp only [indirectBatchDraws, fallbackBatchDraws, List.get?_map,
      List.get?_take hic, get?_drop_eq, List.get?_enum]
    cases hm : models.get? (b.offset + i) with
    | none =>
      have := List.get?_eq_none.mp hm
      omega
    | some m => rfl
  · have h1 : (indirectBatchDraws
        (models.enum.map (fun p => drawCommandOf p.1 p.2)) b).length ≤ i := by
      simp [indirectBatchDraws, List.length_take, List.length_drop]
      omega
    have h2 : (fallbackBatchDraws models b).length ≤ i := by
      simp [fallbackBatchDraws, List.length_take, List.length_drop, List.enum_length]
      omega
    rw [List.get?_eq_none.mpr h1, List.get?_eq_none.mpr h2]

/-- C1: for every model instruction list and every in-bounds batch
partition, the sequence of submitted draws (vertex range and instance
index) of the multi-draw-indirect path — reading the commands staged by
`prepare` at each batch's offset — equals, in order and content, the
sequence produced by the per-instruction fallback loop over the batch
slices. -/
theorem c1_forward_drawer_equivalence (st : ForwardModelDrawerState)
    (models : List ModelInstruction) (batches : List ModelBatch)
    (hvalid : ∀ b ∈ batches, b.offset + b.count ≤ models.length) :
    (batches.map (indirectBatchDraws ((st.prepare models).draw_commands))).flatten
      = (batches.map (fallbackBatchDraws models)).flatten := by
  have hbatch : ∀ b ∈ batches,
      indirectBatchDraws ((st.prepare models).draw_commands) b
        = fallbackBatchDraws models b := by
    intro b hb
    by_cases hz : models.length = 0
    · have hb0 : b.count = 0 := by
        have := hvalid b hb
        omega
      simp [indirectBatchDraws, fallbackBatchDraws, hb0]
    · rw [ForwardModelDrawerState.prepare, if_neg hz]
      show indirectBatchDraws (models.enum.map (fun p => drawCommandOf p.1 p.2)) b = _
      exact batch_draws_eq models b (hvalid b hb)
  exact congrArg List.flatten (List.map_congr_left hbatch)

/-- Witness for C1: two instructions split into two single-draw batches;
both paths submit the same two draws. -/
theorem c1_forward_drawer_equivalence_witness :
    (∀ b ∈ ([⟨0, 1⟩, ⟨1, 1⟩] : List ModelBatch),
      b.offset + b.count
        ≤ ([⟨Mat4.identity, 10, 5⟩, ⟨Mat4.identity, 20, 7⟩] : List ModelInstruction).length)
    ∧ (([⟨0, 1⟩, ⟨1, 1⟩] : List ModelBatch).map
        (indirectBatchDraws ((ForwardModelDrawerState.new.prepare
          [⟨Mat4.identity, 10, 5⟩, ⟨Mat4.identity, 20, 7⟩]).draw_commands))).flatten
      = (([⟨0, 1⟩, ⟨1, 1⟩] : List ModelBatch).map
          (fallbackBatchDraws
            [⟨Mat4.identity, 10, 5⟩, ⟨Mat4.identity, 20, 7⟩])).flatten :=
  ⟨by decide,
   c1_forward_drawer_equivalence ForwardModelDrawerState.new
     [⟨Mat4.identity, 10, 5⟩, ⟨Mat4.identity, 20, 7⟩] [⟨0, 1⟩, ⟨1, 1⟩] (by decide)⟩

end Korangar
